import Mathlib

/-!
Verification of the PC-monitor sampling engine (the second monitoring script of
this repository: `MetricsRepository`, `MetricChart`, `PcMonitorApp`).

The Python source is shallowly embedded: pure helpers become Lean functions,
the SQLite connection becomes explicit state, platform data sources
(`psutil.sensors_temperatures`, `GPUtil.getGPUs`, the `sensors` subprocess,
the `/sys/class/thermal` tree) become explicit environment values, and a call
that may raise is modelled with `Except` / an error flag.  Floating point
values are modelled as rationals; the claims under verification are about
control flow, ordering and set membership, not about rounding.
-/

namespace Monitor

/-! ## RollingSeries: `collections.deque([0.0] * max_points, maxlen=max_points)`

`MetricChart.history` is a deque created full of zeros with a fixed `maxlen`;
`MetricChart.update_value` appends one value, and the deque discards the
oldest element whenever it would exceed `maxlen`. -/

structure RollingSeries where
  maxlen : Nat
  buf : List ℚ
deriving DecidableEq

/-- The deque as constructed: `deque([0.0] * max_points, maxlen=max_points)`. -/
def RollingSeries.init (n : Nat) : RollingSeries :=
  { maxlen := n, buf := List.replicate n 0 }

/-- Appending, `history.append(value)`: append on the right; a deque with `maxlen` set
discards elements from the left so that at most `maxlen` remain. -/
def RollingSeries.push (s : RollingSeries) (v : ℚ) : RollingSeries :=
  let b := s.buf ++ [v]
  { maxlen := s.maxlen, buf := b.drop (b.length - s.maxlen) }

/-- Reading the whole deque (`for i, value in enumerate(self.history)`). -/
def RollingSeries.snapshot (s : RollingSeries) : List ℚ :=
  s.buf

def RollingSeries.pushAll (s : RollingSeries) (vs : List ℚ) : RollingSeries :=
  vs.foldl RollingSeries.push s

theorem RollingSeries.push_maxlen (s : RollingSeries) (v : ℚ) :
    (s.push v).maxlen = s.maxlen := rfl

theorem RollingSeries.push_buf (s : RollingSeries) (v : ℚ) :
    (s.push v).buf = (s.buf ++ [v]).drop (s.buf.length + 1 - s.maxlen) := by
  simp [RollingSeries.push]

theorem RollingSeries.push_buf_length (s : RollingSeries) (v : ℚ) :
    (s.push v).buf.length = min (s.buf.length + 1) s.maxlen := by
  simp [RollingSeries.push]
  omega

theorem RollingSeries.pushAll_maxlen (vs : List ℚ) :
    ∀ s : RollingSeries, (s.pushAll vs).maxlen = s.maxlen := by
  induction vs with
  | nil => intro s; rfl
  | cons v vs ih =>
      intro s
      have h := ih (s.push v)
      simpa [RollingSeries.pushAll, RollingSeries.push_maxlen] using h

/-- Closed form of repeated pushes: the buffer is the concatenation of the old
buffer and the pushed values, with everything beyond the last `maxlen`
elements dropped from the front. -/
theorem RollingSeries.pushAll_buf (vs : List ℚ) :
    ∀ s : RollingSeries, s.buf.length ≤ s.maxlen →
      (s.pushAll vs).buf = (s.buf ++ vs).drop (s.buf.length + vs.length - s.maxlen) := by
  induction vs with
  | nil =>
      intro s hs
      simp only [RollingSeries.pushAll, List.foldl_nil, List.append_nil,
        List.length_nil, Nat.add_zero]
      have h0 : s.buf.length - s.maxlen = 0 := by omega
      rw [h0, List.drop_zero]
  | cons v vs ih =>
      intro s hs
      have hle : (s.push v).buf.length ≤ (s.push v).maxlen := by
        rw [RollingSeries.push_maxlen, RollingSeries.push_buf_length]; omega
      have step : (s.pushAll (v :: vs)) = ((s.push v).pushAll vs) := rfl
      rw [step, ih (s.push v) hle, RollingSeries.push_maxlen, RollingSeries.push_buf]
      have hk : s.buf.length + 1 - s.maxlen ≤ (s.buf ++ [v]).length := by
        simp
      rw [← List.drop_append_of_le_length hk, List.drop_drop]
      have harr : (s.buf ++ [v]) ++ vs = s.buf ++ (v :: vs) := by
        simp
      rw [harr]
      congr 1
      simp only [List.length_drop, List.length_append, List.length_singleton,
        List.length_cons, List.length_nil]
      omega

theorem RollingSeries.init_buf_length (n : Nat) :
    (RollingSeries.init n).buf.length = n := by
  simp [RollingSeries.init]

theorem RollingSeries.pushAll_init_buf (n : Nat) (vs : List ℚ) :
    ((RollingSeries.init n).pushAll vs).buf =
      (List.replicate n (0 : ℚ) ++ vs).drop vs.length := by
  have h := RollingSeries.pushAll_buf vs (RollingSeries.init n)
    (by simp [RollingSeries.init])
  have h2 : (RollingSeries.init n).buf.length + vs.length -
      (RollingSeries.init n).maxlen = vs.length := by
    simp [RollingSeries.init]
  rw [h, h2]
  rfl

/-- C1 — For every RollingSeries (`MetricChart.history`) of capacity `N`:
after any number of pushes `≥ N`, `snapshot()` has length exactly `N` and
equals the last `N` pushed values in push order; before first fill the window
is zero-padded; once at capacity (with `N > 0`) each push evicts exactly the
oldest element (FIFO). -/
theorem c1_rolling_window (N : Nat) (vs : List ℚ) :
    ((RollingSeries.init N).pushAll vs).snapshot.length = N
    ∧ (N ≤ vs.length →
        ((RollingSeries.init N).pushAll vs).snapshot = vs.drop (vs.length - N))
    ∧ (vs.length < N →
        ((RollingSeries.init N).pushAll vs).snapshot =
          List.replicate (N - vs.length) (0 : ℚ) ++ vs)
    ∧ (∀ s : RollingSeries, ∀ v : ℚ, s.buf.length = s.maxlen → 0 < s.maxlen →
        (s.push v).snapshot = s.snapshot.drop 1 ++ [v]) := by
  refine ⟨?_, ?_, ?_, ?_⟩
  · rw [RollingSeries.snapshot, RollingSeries.pushAll_init_buf]
    simp
  · intro hN
    rw [RollingSeries.snapshot, RollingSeries.pushAll_init_buf]
    have h1 : (List.replicate N (0 : ℚ)).length + (vs.length - N) = vs.length := by
      simp
      omega
    calc List.drop vs.length (List.replicate N (0 : ℚ) ++ vs)
        = List.drop ((List.replicate N (0 : ℚ)).length + (vs.length - N))
            (List.replicate N (0 : ℚ) ++ vs) := by rw [h1]
      _ = List.drop (vs.length - N) vs := List.drop_append _
  · intro hN
    rw [RollingSeries.snapshot, RollingSeries.pushAll_init_buf]
    have hle : vs.length ≤ (List.replicate N (0 : ℚ)).length := by
      simp
      omega
    rw [List.drop_append_of_le_length hle, List.drop_replicate]
  · intro s v hfull hpos
    rw [RollingSeries.snapshot, RollingSeries.snapshot, RollingSeries.push_buf, hfull]
    have h1 : s.maxlen + 1 - s.maxlen = 1 := by omega
    rw [h1, List.drop_append_of_le_length (by omega : 1 ≤ s.buf.length)]

/-- Witness for C1: a series of capacity 2, pushed [1, 2, 3], snapshots to
the last two pushed values [2, 3]. -/
theorem c1_rolling_window_witness :
    (2 : Nat) ≤ ([1, 2, 3] : List ℚ).length ∧
      ((RollingSeries.init 2).pushAll [1, 2, 3]).snapshot = [2, 3] :=
  ⟨by decide, (c1_rolling_window 2 [1, 2, 3]).2.1 (by decide)⟩

/-! ## String utilities shared by the temperature readers

`hasSub needle hay` models Python's `needle in hay` on strings;
`takeDigits`, `dropSpaces` model the regex character classes `\d` and `\s`
(ASCII reading, which is what the `sensors` output and thermal-zone type
labels contain). -/

/-- Does `pat` occur at the very start of `l`? -/
def subAt : List Char → List Char → Bool
  | [], _ => true
  | _ :: _, [] => false
  | a :: pat, b :: l => a == b && subAt pat l

/-- Does `pat` occur anywhere in `l`?  (Python `pat in l`.) -/
def hasSubL (pat : List Char) : List Char → Bool
  | [] => subAt pat []
  | b :: l => subAt pat (b :: l) || hasSubL pat l

/-- Python `needle in hay` for strings. -/
def hasSub (needle hay : String) : Bool :=
  hasSubL needle.data hay.data

/-- Greedily take leading decimal digits (`\d+`, greedy). -/
def takeDigits : List Char → (List Char × List Char)
  | [] => ([], [])
  | c :: cs =>
      if c.isDigit then
        let r := takeDigits cs
        (c :: r.1, r.2)
      else ([], c :: cs)

/-- Greedily skip leading whitespace (`\s*`, greedy). -/
def dropSpaces : List Char → List Char
  | [] => []
  | c :: cs => if c.isWhitespace then dropSpaces cs else c :: cs

/-- Numeric value of a digit string (most significant first). -/
def digitsToNat (ds : List Char) : Nat :=
  ds.foldl (fun a c => 10 * a + (c.toNat - 48)) 0

/-! ## `PcMonitorApp._extract_temp_values_from_text`

The Python code runs `re.findall(r"([+-]?\d+(?:\.\d+)?)\s*°?C", raw_text)`
and keeps the parsed values in [-20, 150].  Because every alternative point
of this pattern is followed only by characters no earlier sub-match could
also consume, the backtracking regex engine is equivalent to the committed
greedy matcher below (each optional piece is taken whenever it is locally
possible). -/

/-- Try to match `[+-]?\d+(?:\.\d+)?\s*°?C` at the start of `cs`.  On success
return the captured numeric token (group 1) and the remaining input after the
whole match. -/
def matchTempToken (cs : List Char) : Option (List Char × List Char) :=
  let sign : List Char × List Char :=
    match cs with
    | c :: rest => if c == '+' || c == '-' then ([c], rest) else ([], cs)
    | [] => ([], [])
  let ds := takeDigits sign.2
  if ds.1 = [] then none
  else
    let frac : List Char × List Char :=
      match ds.2 with
      | '.' :: rest =>
          let fd := takeDigits rest
          if fd.1 = [] then ([], ds.2) else ('.' :: fd.1, fd.2)
      | _ => ([], ds.2)
    let afterWs := dropSpaces frac.2
    let afterDeg : List Char :=
      match afterWs with
      | '°' :: rest => rest
      | _ => afterWs
    match afterDeg with
    | 'C' :: rest => some (sign.1 ++ ds.1 ++ frac.1, rest)
    | _ => none

/-- Model of `re.findall`: scan left to right, emitting non-overlapping matches.
`fuel` bounds the recursion; it is instantiated with the input length, which
suffices because every step consumes at least one character. -/
def findTempTokens : Nat → List Char → List (List Char)
  | 0, _ => []
  | _ + 1, [] => []
  | fuel + 1, c :: cs =>
      match matchTempToken (c :: cs) with
      | some (tok, rest) => tok :: findTempTokens fuel rest
      | none => findTempTokens fuel cs

/-- Parsing `float(match)` on a captured token `[+-]?\d+(\.\d+)?` (for tokens of this
shape `float` never raises, so the `except ValueError: continue` branch of the
source is dead). -/
def parseToken (cs : List Char) : ℚ :=
  let sign : Bool × List Char :=
    match cs with
    | '-' :: rest => (true, rest)
    | '+' :: rest => (false, rest)
    | _ => (false, cs)
  let ds := takeDigits sign.2
  let frac : ℚ :=
    match ds.2 with
    | '.' :: fr => (digitsToNat fr : ℚ) / ((10 : ℚ) ^ fr.length)
    | _ => 0
  let v : ℚ := (digitsToNat ds.1 : ℚ) + frac
  if sign.1 then -v else v

/-- Model of `PcMonitorApp._extract_temp_values_from_text`: all regex matches, parsed,
restricted to the plausible range [-20, 150]. -/
def extract_temp_values_from_text (s : String) : List ℚ :=
  ((findTempTokens s.data.length s.data).map parseToken).filter
    (fun v => decide (-20 ≤ v ∧ v ≤ 150))

/-! ## `PcMonitorApp._read_cpu_temp_from_lm_sensors` -/

/-- Result of `subprocess.run(["sensors"], ...)`.  The reader receives `none`
when the call raises (`FileNotFoundError`, `SubprocessError`, timeout). -/
structure SubprocResult where
  returncode : Int
  stdout : String
deriving DecidableEq

def read_cpu_temp_from_lm_sensors (res : Option SubprocResult) : Option ℚ :=
  match res with
  | none => none
  | some r =>
      if r.returncode ≠ 0 ∨ r.stdout = "" then none
      else
        let values := extract_temp_values_from_text r.stdout
        if values = [] then none
        else some (values.sum / (values.length : ℚ))

/-! ## `PcMonitorApp._read_cpu_temp_from_sysfs`

One `ThermalZone` per `thermal_zone*` directory entry whose `temp` file
exists.  `zoneType` is the lowercased content of the `type` file; the code
substitutes `""` both when the file is missing and when reading it raises, so
the empty string is exactly the "type label unavailable" case.  `raw` is
`none` when reading or parsing the `temp` file raises. -/

structure ThermalZone where
  zoneType : String
  raw : Option ℚ
deriving DecidableEq

/-- The contribution of a single zone to the `values` list of the source. -/
def zoneValue (z : ThermalZone) : Option ℚ :=
  match z.raw with
  | none => none
  | some raw =>
      let value := if raw > 1000 then raw / 1000 else raw
      if -20 ≤ value ∧ value ≤ 150 then
        if z.zoneType ≠ "" ∧ hasSub "cpu" z.zoneType = false ∧
            hasSub "x86" z.zoneType = false ∧
            hasSub "package" z.zoneType = false then
          none
        else some value
      else none

def read_cpu_temp_from_sysfs (dirExists : Bool) (zones : List ThermalZone) :
    Option ℚ :=
  if dirExists then
    let values := zones.filterMap zoneValue
    if values = [] then none
    else some (values.sum / (values.length : ℚ))
  else none

/-! ## `PcMonitorApp.read_cpu_temperature` -/

/-- One entry of one sensor group of `psutil.sensors_temperatures()`;
`current` is `none` when the attribute is missing (`getattr(..., None)`). -/
structure SensorEntry where
  current : Option ℚ
deriving DecidableEq

/-- The `values` list collected from the sensor API: every reported `current`
across all groups, in iteration order.  An exception from
`psutil.sensors_temperatures` was already converted to the empty dict. -/
def collectCurrents (sensors : Except Unit (List (List SensorEntry))) :
    List ℚ :=
  let temps := match sensors with
    | .error _ => []
    | .ok t => t
  (temps.map (fun entries => entries.filterMap SensorEntry.current)).flatten

def read_cpu_temperature (sensors : Except Unit (List (List SensorEntry)))
    (lm : Option SubprocResult) (sysfsDir : Bool)
    (zones : List ThermalZone) : Option ℚ :=
  let values := collectCurrents sensors
  if values = [] then
    match read_cpu_temp_from_lm_sensors lm with
    | some fallback_value => some fallback_value
    | none => read_cpu_temp_from_sysfs sysfsDir zones
  else some (values.sum / (values.length : ℚ))

/-! ## `PcMonitorApp.read_gpu_metrics` -/

/-- One `GPUtil` GPU: `load` is a normalized [0,1] fraction, `temperature`
may be missing. -/
structure Gpu where
  load : ℚ
  temperature : Option ℚ
deriving DecidableEq

/-- Reading `GPUtil.getGPUs()`: it either raises (modelled `.error ()`) or returns the
list of GPUs. -/
def read_gpu_metrics (gpus : Except Unit (List Gpu)) :
    Option ℚ × Option ℚ :=
  match gpus with
  | .error _ => (none, none)
  | .ok [] => (none, none)
  | .ok (gpu :: _) => (some (gpu.load * 100), gpu.temperature)

/-- C2 — `read_cpu_temperature` short-circuit: whenever the sensor API yields
at least one `current` reading, the resolver returns the arithmetic mean of
all collected readings, and its result does not depend on the external-tool
or filesystem fallbacks (they are never invoked); a sensor-subsystem
exception is treated exactly as an empty sensor dict, not as fatal. -/
theorem c2_resolver_priority (sensors : Except Unit (List (List SensorEntry)))
    (h : collectCurrents sensors ≠ []) :
    (∀ lm lm' : Option SubprocResult, ∀ d d' : Bool,
        ∀ zs zs' : List ThermalZone,
        read_cpu_temperature sensors lm d zs =
          some ((collectCurrents sensors).sum /
            ((collectCurrents sensors).length : ℚ))
        ∧ read_cpu_temperature sensors lm d zs =
            read_cpu_temperature sensors lm' d' zs')
    ∧ (∀ lm : Option SubprocResult, ∀ d : Bool, ∀ zs : List ThermalZone,
        read_cpu_temperature (.error ()) lm d zs =
          read_cpu_temperature (.ok []) lm d zs) := by
  constructor
  · intro lm lm' d d' zs zs'
    constructor <;> simp [read_cpu_temperature, h]
  · intro lm d zs
    rfl

/-- Witness for C2: two sensor groups reporting 40 and 60 resolve to mean 50,
even with a fallback environment that would report 99. -/
theorem c2_resolver_priority_witness :
    collectCurrents (.ok [[⟨some 40⟩, ⟨none⟩], [⟨some 60⟩]]) ≠ ([] : List ℚ)
    ∧ read_cpu_temperature (.ok [[⟨some 40⟩, ⟨none⟩], [⟨some 60⟩]])
        (some { returncode := 0, stdout := "+99.0°C" }) true
        [{ zoneType := "cpu", raw := some 99 }] = some 50 := by
  refine ⟨by decide, ?_⟩
  have h := ((c2_resolver_priority (.ok [[⟨some 40⟩, ⟨none⟩], [⟨some 60⟩]])
      (by decide)).1 (some { returncode := 0, stdout := "+99.0°C" })
      none true false [{ zoneType := "cpu", raw := some 99 }] []).1
  rw [h]
  norm_num [collectCurrents, List.filterMap_cons, List.filterMap_nil,
    List.sum_cons, List.sum_nil]

/-! ## C5 — the claim's reference algorithm for the sysfs fallback -/

/-- The reference zone contribution exactly as claim C5 words it: scale when
the *magnitude* of the raw reading exceeds 1000 (the code instead tests the
signed value). -/
def zoneValueSpecRef (z : ThermalZone) : Option ℚ :=
  match z.raw with
  | none => none
  | some raw =>
      let value := if |raw| > 1000 then raw / 1000 else raw
      if -20 ≤ value ∧ value ≤ 150 then
        if z.zoneType ≠ "" ∧ hasSub "cpu" z.zoneType = false ∧
            hasSub "x86" z.zoneType = false ∧
            hasSub "package" z.zoneType = false then
          none
        else some value
      else none

/-- The reference algorithm of claim C5, literally (magnitude test). -/
def sysfs_spec_reference (dirExists : Bool) (zones : List ThermalZone) :
    Option ℚ :=
  if dirExists then
    let values := zones.filterMap zoneValueSpecRef
    if values = [] then none
    else some (values.sum / (values.length : ℚ))
  else none

/-- C5 counterexample — at a CPU zone whose raw reading is -15000
(millidegrees, -15 °C, inside the plausible range once scaled), the code
tests `value > 1000`, does not scale, and discards the out-of-range -15000,
returning no data; the claim's magnitude-based reference scales it to -15
and returns it. -/
theorem c5_counterexample :
    read_cpu_temp_from_sysfs true [{ zoneType := "cpu", raw := some (-15000) }]
        = none
    ∧ sysfs_spec_reference true [{ zoneType := "cpu", raw := some (-15000) }]
        = some (-15)
    ∧ read_cpu_temp_from_sysfs true
          [{ zoneType := "cpu", raw := some (-15000) }] ≠
        sysfs_spec_reference true
          [{ zoneType := "cpu", raw := some (-15000) }] := by
  have h1 : read_cpu_temp_from_sysfs true
      [{ zoneType := "cpu", raw := some (-15000) }] = none := by
    norm_num [read_cpu_temp_from_sysfs, zoneValue]
  have h2 : sysfs_spec_reference true
      [{ zoneType := "cpu", raw := some (-15000) }] = some (-15) := by
    norm_num [sysfs_spec_reference, zoneValueSpecRef, hasSub, hasSubL, subAt,
      List.filterMap_cons, List.filterMap_nil, List.sum_cons, List.sum_nil]
  refine ⟨h1, h2, by rw [h1, h2]; simp⟩

/-- The claim's reference algorithm amended only where the counterexample
forces it: a raw reading is divided by 1000 when the reading itself exceeds
1000 (not its magnitude).  Stated in the spec's order: keep the zones whose
type label is unavailable or CPU-related, scale their raw readings, discard
values outside [-20, 150], and take the mean of what remains. -/
def sysfs_amended_reference (dirExists : Bool) (zones : List ThermalZone) :
    Option ℚ :=
  if dirExists then
    let relevant := zones.filter (fun z =>
      (z.zoneType == "") || hasSub "cpu" z.zoneType ||
        hasSub "x86" z.zoneType || hasSub "package" z.zoneType)
    let scaled := relevant.filterMap (fun z =>
      z.raw.map (fun raw => if raw > 1000 then raw / 1000 else raw))
    let values := scaled.filter (fun v => decide (-20 ≤ v ∧ v ≤ 150))
    if values = [] then none
    else some (values.sum / (values.length : ℚ))
  else none

theorem zoneValue_filter_eq (zs : List ThermalZone) :
    zs.filterMap zoneValue =
      ((zs.filter (fun z =>
          (z.zoneType == "") || hasSub "cpu" z.zoneType ||
            hasSub "x86" z.zoneType ||
            hasSub "package" z.zoneType)).filterMap (fun z =>
        z.raw.map (fun raw =>
          if raw > 1000 then raw / 1000 else raw))).filter
        (fun v => decide (-20 ≤ v ∧ v ≤ 150)) := by
  induction zs with
  | nil => rfl
  | cons z zs ih =>
      by_cases ht : ((z.zoneType == "") || hasSub "cpu" z.zoneType ||
          hasSub "x86" z.zoneType || hasSub "package" z.zoneType) = true
      · cases hr : z.raw with
        | none =>
            simp [zoneValue, hr, ht, ih]
        | some raw =>
            by_cases hrange : (-20 ≤ (if raw > 1000 then raw / 1000 else raw)
                ∧ (if raw > 1000 then raw / 1000 else raw) ≤ 150)
            · have hskip : ¬(z.zoneType ≠ "" ∧ hasSub "cpu" z.zoneType = false ∧
                  hasSub "x86" z.zoneType = false ∧
                  hasSub "package" z.zoneType = false) := by
                simp only [Bool.or_eq_true, beq_iff_eq] at ht
                rcases ht with ((h1 | h2) | h3) | h4 <;> simp_all
              simp [zoneValue, hr, ht, ih, hrange, hskip]
            · simp [zoneValue, hr, ht, ih, hrange]
      · have hskip : z.zoneType ≠ "" ∧ hasSub "cpu" z.zoneType = false ∧
            hasSub "x86" z.zoneType = false ∧
            hasSub "package" z.zoneType = false := by
          simp only [Bool.or_eq_true, beq_iff_eq, not_or] at ht
          push_neg at ht
          simp_all [Bool.not_eq_true]
        cases hr : z.raw with
        | none => simp [zoneValue, hr, ht, ih]
        | some raw =>
            by_cases hrange : (-20 ≤ (if raw > 1000 then raw / 1000 else raw)
                ∧ (if raw > 1000 then raw / 1000 else raw) ≤ 150)
            · simp [zoneValue, hr, ht, ih, hrange, hskip]
            · simp [zoneValue, hr, ht, ih, hrange]

/-- C5 amended — the kernel thermal-zone fallback equals the claim's
reference algorithm with the scaling condition read as "the raw value
exceeds 1000" instead of "its magnitude exceeds 1000". -/
theorem c5_sysfs_amended (dirExists : Bool) (zones : List ThermalZone) :
    read_cpu_temp_from_sysfs dirExists zones =
      sysfs_amended_reference dirExists zones := by
  cases dirExists with
  | false => rfl
  | true =>
      simp only [read_cpu_temp_from_sysfs, sysfs_amended_reference, if_true]
      rw [zoneValue_filter_eq]

/-! ## C6 — the claim's token pattern for the external-tool fallback -/

/-- Token matcher following claim C6's wording literally: a signed/unsigned
decimal number immediately followed by a degree marker and an optional unit
letter. -/
def matchSpecTempToken (cs : List Char) : Option (List Char × List Char) :=
  let sign : List Char × List Char :=
    match cs with
    | c :: rest => if c == '+' || c == '-' then ([c], rest) else ([], cs)
    | [] => ([], [])
  let ds := takeDigits sign.2
  if ds.1 = [] then none
  else
    let frac : List Char × List Char :=
      match ds.2 with
      | '.' :: rest =>
          let fd := takeDigits rest
          if fd.1 = [] then ([], ds.2) else ('.' :: fd.1, fd.2)
      | _ => ([], ds.2)
    match frac.2 with
    | '°' :: rest =>
        match rest with
        | 'C' :: rest2 => some (sign.1 ++ ds.1 ++ frac.1, rest2)
        | _ => some (sign.1 ++ ds.1 ++ frac.1, rest)
    | _ => none

def findSpecTempTokens : Nat → List Char → List (List Char)
  | 0, _ => []
  | _ + 1, [] => []
  | fuel + 1, c :: cs =>
      match matchSpecTempToken (c :: cs) with
      | some (tok, rest) => tok :: findSpecTempTokens fuel rest
      | none => findSpecTempTokens fuel cs

/-- Extraction exactly as claim C6 words the pattern, with the same range
filter. -/
def spec_extract_temp_values (s : String) : List ℚ :=
  ((findSpecTempTokens s.data.length s.data).map parseToken).filter
    (fun v => decide (-20 ≤ v ∧ v ≤ 150))

/-- C6 counterexample — on the text "55.0C" the code's pattern
`[+-]?\d+(?:\.\d+)?\s*°?C` matches (the degree marker is optional and the
letter C mandatory), yielding [55.0]; the claim's pattern (degree marker
mandatory, unit letter optional) matches nothing. -/
theorem c6_counterexample :
    extract_temp_values_from_text "55.0C" = [55]
    ∧ spec_extract_temp_values "55.0C" = []
    ∧ extract_temp_values_from_text "55.0C" ≠
        spec_extract_temp_values "55.0C" := by
  have h1 : extract_temp_values_from_text "55.0C" = [55] := by
    simp [extract_temp_values_from_text, findTempTokens, matchTempToken,
      takeDigits, dropSpaces, parseToken, digitsToNat]
    norm_num
  have h2 : spec_extract_temp_values "55.0C" = [] := by
    simp [spec_extract_temp_values, findSpecTempTokens, matchSpecTempToken,
      takeDigits, dropSpaces]
  refine ⟨h1, h2, by rw [h1, h2]; simp⟩

/-- C6 amended — tokens are a signed/unsigned decimal number followed,
possibly after whitespace, by an optional degree marker and a mandatory unit
letter C; every parsed candidate outside [-20, 150] is excluded and every
candidate inside is included; the fallback returns the mean of the remaining
values, or no data if none remain. -/
theorem c6_lm_sensors_amended :
    (∀ s : String, ∀ v ∈ extract_temp_values_from_text s, -20 ≤ v ∧ v ≤ 150)
    ∧ (∀ s : String, extract_temp_values_from_text s =
        ((findTempTokens s.data.length s.data).map parseToken).filter
          (fun v => decide (-20 ≤ v ∧ v ≤ 150)))
    ∧ (∀ r : SubprocResult, r.returncode = 0 → r.stdout ≠ "" →
        read_cpu_temp_from_lm_sensors (some r) =
          (if extract_temp_values_from_text r.stdout = [] then none
           else some ((extract_temp_values_from_text r.stdout).sum /
             ((extract_temp_values_from_text r.stdout).length : ℚ))))
    ∧ extract_temp_values_from_text "cpu: +55.0°C  aux: +200.0°C" = [55] := by
  refine ⟨?_, fun _ => rfl, ?_, ?_⟩
  · intro s v hv
    have h := (List.mem_filter.mp hv).2
    exact of_decide_eq_true h
  · intro r h0 hs
    simp [read_cpu_temp_from_lm_sensors, h0, hs]
  · simp [extract_temp_values_from_text, findTempTokens, matchTempToken,
      takeDigits, dropSpaces, parseToken, digitsToNat]
    norm_num

/-- Witness for the amended C6: on a sensors output containing +55.0°C and
+200.0°C the fallback averages only the in-range candidate, returning 55. -/
theorem c6_lm_sensors_amended_witness :
    read_cpu_temp_from_lm_sensors
        (some { returncode := 0, stdout := "cpu: +55.0°C  aux: +200.0°C" }) =
      some 55 := by
  have h := c6_lm_sensors_amended.2.2.1
    { returncode := 0, stdout := "cpu: +55.0°C  aux: +200.0°C" } rfl (by decide)
  have hx := c6_lm_sensors_amended.2.2.2
  rw [h, hx]
  norm_num

/-- C8 — GpuReader never raises to its caller: an enumeration failure and the
no-GPU case both yield (None, None); otherwise the first GPU's normalized
[0,1] load fraction is scaled to a percentage and its temperature is passed
through, independently optional. -/
theorem c8_gpu_reader :
    read_gpu_metrics (.error ()) = (none, none)
    ∧ read_gpu_metrics (.ok []) = (none, none)
    ∧ (∀ gpu : Gpu, ∀ rest : List Gpu,
        read_gpu_metrics (.ok (gpu :: rest)) =
          (some (gpu.load * 100), gpu.temperature)) :=
  ⟨rfl, rfl, fun _ _ => rfl⟩

/-! ## MetricsRepository: the SQLite layer -/

inductive SqlValue where
  | null
  | int (i : Int)
  | real (q : ℚ)
  | text (s : String)
deriving DecidableEq

structure Column where
  name : String
  colType : String
deriving DecidableEq

/-- One SQLite table: ordered column list, rows aligned with it, and the
AUTOINCREMENT counter feeding the surrogate key. -/
structure Table where
  cols : List Column
  rows : List (List SqlValue)
  nextId : Int
deriving DecidableEq

/-- A connection: `db` is the committed (durable) state that a fresh
connection on the same file would see, `uncommitted` the working state of
this connection; `connection.commit()` copies the working state into the
durable one. -/
structure Conn where
  db : Option Table
  uncommitted : Option Table
deriving DecidableEq

def idCol : Column :=
  { name := "id", colType := "INTEGER PRIMARY KEY AUTOINCREMENT" }

def capturedAtCol : Column := { name := "captured_at", colType := "TEXT NOT NULL" }

def cpuPercentCol : Column := { name := "cpu_percent", colType := "REAL NOT NULL" }

def ramPercentCol : Column := { name := "ram_percent", colType := "REAL NOT NULL" }

def gpuLoadCol : Column := { name := "gpu_load_percent", colType := "REAL" }

def gpuTempCol : Column := { name := "gpu_temp_c", colType := "REAL" }

def cpuTempCol : Column := { name := "cpu_temp_c", colType := "REAL" }

/-- The statement `CREATE TABLE IF NOT EXISTS measurements (...)`. -/
def createTableIfNotExists (t : Option Table) : Table :=
  match t with
  | some tb => tb
  | none =>
      { cols := [idCol, capturedAtCol, cpuPercentCol, ramPercentCol,
          gpuLoadCol, gpuTempCol, cpuTempCol],
        rows := [], nextId := 1 }

/-- The result of `PRAGMA table_info(...)` projected to the column names. -/
def colNames (t : Table) : List String :=
  t.cols.map Column.name

/-- Model of `MetricsRepository._ensure_column`: a missing column is added with
`ALTER TABLE ... ADD COLUMN`, which appends the column and fills it with NULL
in every existing row; a present column leaves the table untouched. -/
def ensure_column (t : Table) (c : Column) : Table :=
  if c.name ∈ colNames t then t
  else
    { cols := t.cols ++ [c],
      rows := t.rows.map (fun r => r ++ [SqlValue.null]),
      nextId := t.nextId }

/-- Model of `MetricsRepository.create_schema`: create if absent, ensure the three
optional columns, commit. -/
def create_schema (conn : Conn) : Conn :=
  let t1 := createTableIfNotExists conn.uncommitted
  let t2 := ensure_column t1 gpuLoadCol
  let t3 := ensure_column t2 gpuTempCol
  let t4 := ensure_column t3 cpuTempCol
  { db := some t4, uncommitted := some t4 }

theorem createTableIfNotExists_some (tb : Table) :
    createTableIfNotExists (some tb) = tb := rfl

theorem create_schema_def (conn : Conn) :
    create_schema conn =
      { db := some (ensure_column (ensure_column (ensure_column
          (createTableIfNotExists conn.uncommitted) gpuLoadCol) gpuTempCol)
          cpuTempCol),
        uncommitted := some (ensure_column (ensure_column (ensure_column
          (createTableIfNotExists conn.uncommitted) gpuLoadCol) gpuTempCol)
          cpuTempCol) } := rfl

theorem ensure_column_of_mem (t : Table) (c : Column)
    (h : c.name ∈ colNames t) : ensure_column t c = t := by
  unfold ensure_column
  rw [if_pos h]

theorem ensure_column_of_not_mem (t : Table) (c : Column)
    (h : c.name ∉ colNames t) :
    ensure_column t c =
      { cols := t.cols ++ [c],
        rows := t.rows.map (fun r => r ++ [SqlValue.null]),
        nextId := t.nextId } := by
  unfold ensure_column
  rw [if_neg h]

theorem colNames_ensure_of_not_mem (t : Table) (c : Column)
    (h : c.name ∉ colNames t) :
    colNames (ensure_column t c) = colNames t ++ [c.name] := by
  rw [ensure_column_of_not_mem t c h]
  simp [colNames]

theorem mem_colNames_ensure (t : Table) (c : Column) :
    c.name ∈ colNames (ensure_column t c) := by
  by_cases h : c.name ∈ colNames t
  · rw [ensure_column_of_mem t c h]; exact h
  · rw [colNames_ensure_of_not_mem t c h]
    simp

theorem mem_colNames_ensure_of_mem (t : Table) (c d : Column)
    (h : d.name ∈ colNames t) : d.name ∈ colNames (ensure_column t c) := by
  by_cases hc : c.name ∈ colNames t
  · rw [ensure_column_of_mem t c hc]; exact h
  · rw [colNames_ensure_of_not_mem t c hc]
    exact List.mem_append_left _ h

theorem nodup_colNames_ensure (t : Table) (c : Column)
    (h : (colNames t).Nodup) : (colNames (ensure_column t c)).Nodup := by
  by_cases hc : c.name ∈ colNames t
  · rw [ensure_column_of_mem t c hc]; exact h
  · rw [colNames_ensure_of_not_mem t c hc, List.nodup_append]
    refine ⟨h, List.nodup_singleton _, ?_⟩
    intro a ha hb
    rw [List.mem_singleton] at hb
    subst hb
    exact hc ha

/-- C4 — `create_schema` is idempotent and additive-only: a second run
changes nothing; starting from any schema with distinct column names the
result again has distinct column names (no duplicate columns); on a store
from the earlier schema version (lacking `cpu_temp_c`) it appends exactly the
missing column, keeps every existing row's original values, and fills the new
column with NULL — the table is never recreated or dropped. -/
theorem c4_schema_migration :
    (∀ conn : Conn, create_schema (create_schema conn) = create_schema conn)
    ∧ (∀ d : Option Table, ∀ t : Table, (colNames t).Nodup →
        ∃ t2 : Table,
          create_schema { db := d, uncommitted := some t } =
            { db := some t2, uncommitted := some t2 }
          ∧ (colNames t2).Nodup)
    ∧ (∀ d : Option Table, ∀ t : Table,
        "gpu_load_percent" ∈ colNames t → "gpu_temp_c" ∈ colNames t →
        "cpu_temp_c" ∉ colNames t →
        create_schema { db := d, uncommitted := some t } =
          { db := some { cols := t.cols ++ [cpuTempCol],
                         rows := t.rows.map (fun r => r ++ [SqlValue.null]),
                         nextId := t.nextId },
            uncommitted := some { cols := t.cols ++ [cpuTempCol],
                                  rows := t.rows.map (fun r => r ++ [SqlValue.null]),
                                  nextId := t.nextId } }) := by
  refine ⟨?_, ?_, ?_⟩
  · intro conn
    have hgl : gpuLoadCol.name ∈ colNames (ensure_column (ensure_column
        (ensure_column (createTableIfNotExists conn.uncommitted) gpuLoadCol)
        gpuTempCol) cpuTempCol) :=
      mem_colNames_ensure_of_mem _ _ _ (mem_colNames_ensure_of_mem _ _ _
        (mem_colNames_ensure _ _))
    have hgt : gpuTempCol.name ∈ colNames (ensure_column (ensure_column
        (ensure_column (createTableIfNotExists conn.uncommitted) gpuLoadCol)
        gpuTempCol) cpuTempCol) :=
      mem_colNames_ensure_of_mem _ _ _ (mem_colNames_ensure _ _)
    have hct : cpuTempCol.name ∈ colNames (ensure_column (ensure_column
        (ensure_column (createTableIfNotExists conn.uncommitted) gpuLoadCol)
        gpuTempCol) cpuTempCol) :=
      mem_colNames_ensure _ _
    simp only [create_schema_def, createTableIfNotExists_some]
    rw [ensure_column_of_mem _ _ hgl, ensure_column_of_mem _ _ hgt,
      ensure_column_of_mem _ _ hct]
  · intro d t h
    refine ⟨ensure_column (ensure_column (ensure_column t gpuLoadCol)
      gpuTempCol) cpuTempCol, rfl, ?_⟩
    exact nodup_colNames_ensure _ _ (nodup_colNames_ensure _ _
      (nodup_colNames_ensure _ _ h))
  · intro d t hgl hgt hct
    simp only [create_schema_def, createTableIfNotExists_some]
    rw [ensure_column_of_mem _ gpuLoadCol hgl,
      ensure_column_of_mem _ gpuTempCol hgt,
      ensure_column_of_not_mem _ cpuTempCol hct]

/-- The earlier schema version observed in this repository's history:
`measurements` without the `cpu_temp_c` column, holding one row. -/
def oldTableV1 : Table :=
  { cols := [idCol, capturedAtCol, cpuPercentCol, ramPercentCol,
      gpuLoadCol, gpuTempCol],
    rows := [[SqlValue.int 1, SqlValue.text "2024-01-01 00:00:00",
      SqlValue.real 10, SqlValue.real 20, SqlValue.null, SqlValue.real 55]],
    nextId := 2 }

/-- Witness for C4: migrating a concrete store of the earlier schema version
appends `cpu_temp_c` and pads the existing row with NULL. -/
theorem c4_schema_migration_witness :
    "gpu_load_percent" ∈ colNames oldTableV1
    ∧ create_schema { db := none, uncommitted := some oldTableV1 } =
      { db := some { cols := oldTableV1.cols ++ [cpuTempCol],
                     rows := oldTableV1.rows.map (fun r => r ++ [SqlValue.null]),
                     nextId := oldTableV1.nextId },
        uncommitted := some { cols := oldTableV1.cols ++ [cpuTempCol],
                              rows := oldTableV1.rows.map
                                (fun r => r ++ [SqlValue.null]),
                              nextId := oldTableV1.nextId } } := by
  refine ⟨by decide, ?_⟩
  exact c4_schema_migration.2.2 none oldTableV1 (by decide) (by decide)
    (by decide)

/-! ## `MetricsRepository.insert_measurement` and the Sample record -/

/-- One tick's reconciled reading, as passed to `insert_measurement`. -/
structure Sample where
  captured_at : String
  cpu_percent : ℚ
  ram_percent : ℚ
  gpu_load_percent : Option ℚ
  gpu_temp_c : Option ℚ
  cpu_temp_c : Option ℚ
deriving DecidableEq

/-- An optional float bound into the parameterized INSERT: `None -> NULL`. -/
def optReal : Option ℚ → SqlValue
  | none => SqlValue.null
  | some q => SqlValue.real q

/-- The row produced by the INSERT's VALUES tuple (preceded by the
autoincremented id). -/
def rowOfSample (nextId : Int) (s : Sample) : List SqlValue :=
  [SqlValue.int nextId, SqlValue.text s.captured_at,
   SqlValue.real s.cpu_percent, SqlValue.real s.ram_percent,
   optReal s.gpu_load_percent, optReal s.gpu_temp_c, optReal s.cpu_temp_c]

def insertRow (t : Table) (s : Sample) : Table :=
  { cols := t.cols, rows := t.rows ++ [rowOfSample t.nextId s],
    nextId := t.nextId + 1 }

/-- Model of `MetricsRepository.insert_measurement`: one INSERT then `commit()`.
`fail = true` models an environmental write/connection error (disk full,
lock contention): `execute` raises before changing anything and the exception
propagates to the caller.  An INSERT into a store without the table would
also raise (unreachable here: the constructor runs `create_schema`). -/
def insert_measurement (fail : Bool) (conn : Conn) (s : Sample) :
    Except Unit Conn :=
  if fail then .error ()
  else
    match conn.uncommitted with
    | none => .error ()
    | some t =>
        let t2 := insertRow t s
        .ok { db := some t2, uncommitted := some t2 }

/-- What a fresh connection opened on the same file reads: the committed
state. -/
def freshRead (conn : Conn) : Option Table :=
  conn.db

/-- C7 — `insert_measurement` inserts exactly one row and commits it within
the same call; a fresh read of the store immediately afterwards sees that
row as its last, carrying exactly the inserted Sample's fields, with NULL for
each absent optional. -/
theorem c7_insert_roundtrip (conn : Conn) (s : Sample) (t : Table)
    (h : conn.uncommitted = some t) :
    insert_measurement false conn s =
      .ok { db := some (insertRow t s), uncommitted := some (insertRow t s) }
    ∧ (insertRow t s).rows.length = t.rows.length + 1
    ∧ (insertRow t s).rows.getLast? = some (rowOfSample t.nextId s)
    ∧ freshRead { db := some (insertRow t s),
                  uncommitted := some (insertRow t s) } = some (insertRow t s)
    ∧ rowOfSample t.nextId s =
        [SqlValue.int t.nextId, SqlValue.text s.captured_at,
         SqlValue.real s.cpu_percent, SqlValue.real s.ram_percent,
         optReal s.gpu_load_percent, optReal s.gpu_temp_c,
         optReal s.cpu_temp_c] := by
  refine ⟨?_, ?_, ?_, rfl, rfl⟩
  · simp [insert_measurement, h]
  · simp [insertRow]
  · simp [insertRow, List.getLast?_concat]

/-- A concrete Sample with every optional source absent. -/
def sample0 : Sample :=
  { captured_at := "2024-01-01 00:00:01", cpu_percent := 12, ram_percent := 34,
    gpu_load_percent := none, gpu_temp_c := none, cpu_temp_c := none }

/-- Witness for C7: inserting a Sample with absent optionals into a fresh
store commits a single row ending in three NULLs. -/
theorem c7_insert_roundtrip_witness :
    insert_measurement false
        { db := none, uncommitted := some (createTableIfNotExists none) }
        sample0 =
      .ok { db := some (insertRow (createTableIfNotExists none) sample0),
            uncommitted := some (insertRow (createTableIfNotExists none)
              sample0) }
    ∧ (insertRow (createTableIfNotExists none) sample0).rows.getLast? =
        some [SqlValue.int 1, SqlValue.text "2024-01-01 00:00:01",
          SqlValue.real 12, SqlValue.real 34, SqlValue.null, SqlValue.null,
          SqlValue.null] := by
  have h := c7_insert_roundtrip
    { db := none, uncommitted := some (createTableIfNotExists none) }
    sample0 (createTableIfNotExists none) rfl
  refine ⟨h.1, ?_⟩
  rw [h.2.2.1]
  simp [rowOfSample, sample0, optReal, createTableIfNotExists]

/-! ## The tick: `PcMonitorApp.update_all_metrics`

A `MetricChart` is modelled by its rolling history and its `value_var` text
(the Canvas drawing is rendering, outside the sampling engine).  The tick's
platform reads are the `TickEnv`; `storeFails` says whether this tick's
`insert_measurement` raises.  The callback has no exception handling, so on a
raise the statements after the insert — in particular
`self.root.after(1000, self.update_all_metrics)` — do not run. -/

/-- Round to the nearest integer, ties to even (Python float formatting). -/
def roundHalfEven (q : ℚ) : Int :=
  let f := ⌊q⌋
  let r := q - f
  if r < 1 / 2 then f
  else if 1 / 2 < r then f + 1
  else if f % 2 = 0 then f else f + 1

/-- Python `f"{value:.1f}"` on our exact rationals. -/
def fmt1 (q : ℚ) : String :=
  let n := roundHalfEven (q * 10)
  let na := n.natAbs
  let sign := if q < 0 then "-" else ""
  sign ++ toString (na / 10) ++ "." ++ toString (na % 10)

/-- One `MetricChart`: rolling history, current label text, unit suffix. -/
structure ChartState where
  history : RollingSeries
  valueText : String
  unit : String

/-- Model of `MetricChart.update_value`: append to the deque, then set the label with
`display_text or f"Текущее значение: {value:.1f}{self.unit}"` — Python `or`
falls back both on `None` and on an empty string. -/
def update_value (c : ChartState) (value : ℚ) (displayText : Option String) :
    ChartState :=
  let text :=
    match displayText with
    | some t =>
        if t = "" then "Текущее значение: " ++ fmt1 value ++ c.unit else t
    | none => "Текущее значение: " ++ fmt1 value ++ c.unit
  { history := c.history.push value, valueText := text, unit := c.unit }

/-- A `MetricChart` as constructed: history pre-filled with zeros and the
initial label. -/
def initChart (maxPoints : Nat) (unit : String) : ChartState :=
  { history := RollingSeries.init maxPoints,
    valueText := "Текущее значение: 0.0" ++ unit, unit := unit }

/-- The `PcMonitorApp` state touched by a tick: the five charts and the
repository connection. -/
structure AppState where
  cpu_chart : ChartState
  ram_chart : ChartState
  gpu_load_chart : ChartState
  gpu_temp_chart : ChartState
  cpu_temp_chart : ChartState
  repo : Conn

/-- Everything one tick reads from the platform, plus whether the store
write raises this tick. -/
structure TickEnv where
  captured_at : String
  cpu_percent : ℚ
  ram_percent : ℚ
  gpus : Except Unit (List Gpu)
  sensors : Except Unit (List (List SensorEntry))
  lm : Option SubprocResult
  sysfsDir : Bool
  zones : List ThermalZone
  storeFails : Bool

/-- Result of one tick.  `storeError`: the insert raised and the exception
propagated out of the callback (reaching Tkinter's callback-exception
reporting).  `nextTickScheduled`: whether the callback's final statement
`self.root.after(1000, self.update_all_metrics)` was reached. -/
structure TickResult where
  state : AppState
  storeError : Bool
  nextTickScheduled : Bool

/-- Model of `PcMonitorApp.update_all_metrics`. -/
def update_all_metrics (env : TickEnv) (st : AppState) : TickResult :=
  let gpu := read_gpu_metrics env.gpus
  let cpu_temp_c := read_cpu_temperature env.sensors env.lm env.sysfsDir
    env.zones
  let cpuChart := update_value st.cpu_chart env.cpu_percent
    (some ("Текущая загрузка CPU: " ++ fmt1 env.cpu_percent ++ "%"))
  let ramChart := update_value st.ram_chart env.ram_percent
    (some ("Текущая загрузка RAM: " ++ fmt1 env.ram_percent ++ "%"))
  let glChart :=
    match gpu.1 with
    | none => update_value st.gpu_load_chart 0
        (some "GPU load: N/A (видеокарта не обнаружена)")
    | some v => update_value st.gpu_load_chart v
        (some ("Текущая загрузка GPU: " ++ fmt1 v ++ "%"))
  let gtChart :=
    match gpu.2 with
    | none => update_value st.gpu_temp_chart 0 (some "GPU temp: N/A")
    | some v => update_value st.gpu_temp_chart v
        (some ("Текущая температура GPU: " ++ fmt1 v ++ "°C"))
  let ctChart :=
    match cpu_temp_c with
    | none => update_value st.cpu_temp_chart 0
        (some "CPU temp: N/A (датчик недоступен)")
    | some v => update_value st.cpu_temp_chart v
        (some ("Текущая температура CPU: " ++ fmt1 v ++ "°C"))
  let st1 : AppState :=
    { cpu_chart := cpuChart, ram_chart := ramChart, gpu_load_chart := glChart,
      gpu_temp_chart := gtChart, cpu_temp_chart := ctChart, repo := st.repo }
  match insert_measurement env.storeFails st.repo
      { captured_at := env.captured_at, cpu_percent := env.cpu_percent,
        ram_percent := env.ram_percent, gpu_load_percent := gpu.1,
        gpu_temp_c := gpu.2, cpu_temp_c := cpu_temp_c } with
  | .error _ => { state := st1, storeError := true, nextTickScheduled := false }
  | .ok repo =>
      { state := { st1 with repo := repo }, storeError := false,
        nextTickScheduled := true }

/-- The application state as `PcMonitorApp.__init__` builds it. -/
def initApp : AppState :=
  { cpu_chart := initChart 90 "%", ram_chart := initChart 90 "%",
    gpu_load_chart := initChart 90 "%", gpu_temp_chart := initChart 90 "°C",
    cpu_temp_chart := initChart 90 "°C",
    repo := create_schema { db := none, uncommitted := none } }

/-- An environment whose store append raises. -/
def envStoreFail : TickEnv :=
  { captured_at := "2024-01-01 00:00:02", cpu_percent := 5, ram_percent := 7,
    gpus := .error (), sensors := .error (), lm := none, sysfsDir := false,
    zones := [], storeFails := true }

/-- C3 counterexample — in a concrete tick whose store append raises, the
series updates complete and the error propagates, but the next tick is NOT
scheduled (`root.after` follows the insert and no handler catches the
exception), contradicting the claim that the loop schedules and runs the
next tick. -/
theorem c3_counterexample :
    (update_all_metrics envStoreFail initApp).storeError = true
    ∧ (update_all_metrics envStoreFail initApp).nextTickScheduled = false
    ∧ (update_all_metrics envStoreFail initApp).state.cpu_chart.history =
        initApp.cpu_chart.history.push 5 :=
  ⟨rfl, rfl, rfl⟩

/-- C3 amended — for every tick whose store append raises: the in-memory
series updates for that tick still complete (each of the five histories
receives exactly this tick's value), the repository is unchanged, and the
error propagates out of the callback — but the next tick is NOT scheduled:
`root.after` is the callback's last statement and is never reached, so the
periodic loop stops rather than continuing. -/
theorem c3_store_failure (env : TickEnv) (st : AppState)
    (h : env.storeFails = true) :
    (update_all_metrics env st).state.cpu_chart.history =
        st.cpu_chart.history.push env.cpu_percent
    ∧ (update_all_metrics env st).state.ram_chart.history =
        st.ram_chart.history.push env.ram_percent
    ∧ (update_all_metrics env st).state.gpu_load_chart.history =
        st.gpu_load_chart.history.push ((read_gpu_metrics env.gpus).1.getD 0)
    ∧ (update_all_metrics env st).state.gpu_temp_chart.history =
        st.gpu_temp_chart.history.push ((read_gpu_metrics env.gpus).2.getD 0)
    ∧ (update_all_metrics env st).state.cpu_temp_chart.history =
        st.cpu_temp_chart.history.push
          ((read_cpu_temperature env.sensors env.lm env.sysfsDir
            env.zones).getD 0)
    ∧ (update_all_metrics env st).storeError = true
    ∧ (update_all_metrics env st).nextTickScheduled = false
    ∧ (update_all_metrics env st).state.repo = st.repo := by
  cases hg1 : (read_gpu_metrics env.gpus).1 <;>
    cases hg2 : (read_gpu_metrics env.gpus).2 <;>
      cases hc : read_cpu_temperature env.sensors env.lm env.sysfsDir
          env.zones <;>
        refine ⟨?_, ?_, ?_, ?_, ?_, ?_, ?_, ?_⟩ <;>
          simp [update_all_metrics, insert_measurement, update_value,
            hg1, hg2, hc, h]

/-- Witness for the amended C3, at the concrete failing tick. -/
theorem c3_store_failure_witness :
    envStoreFail.storeFails = true
    ∧ (update_all_metrics envStoreFail initApp).state.ram_chart.history =
        initApp.ram_chart.history.push 7
    ∧ (update_all_metrics envStoreFail initApp).storeError = true
    ∧ (update_all_metrics envStoreFail initApp).nextTickScheduled = false
    ∧ (update_all_metrics envStoreFail initApp).state.repo = initApp.repo := by
  have h := c3_store_failure envStoreFail initApp rfl
  exact ⟨rfl, h.2.1, h.2.2.2.2.2.1, h.2.2.2.2.2.2.1, h.2.2.2.2.2.2.2⟩

/-- C9 — when all three temperature sources fail: the resolver returns no
data; the tick renders the explicit unavailable label
"CPU temp: N/A (датчик недоступен)" (containing "N/A", not a zero reading);
and the committed row of the tick's insert carries NULL in its final
(`cpu_temp_c`) column. -/
theorem c9_all_sources_fail (env : TickEnv) (st : AppState) (t : Table)
    (hs : collectCurrents env.sensors = [])
    (hlm : read_cpu_temp_from_lm_sensors env.lm = none)
    (hfs : read_cpu_temp_from_sysfs env.sysfsDir env.zones = none)
    (hok : env.storeFails = false)
    (ht : st.repo.uncommitted = some t) :
    read_cpu_temperature env.sensors env.lm env.sysfsDir env.zones = none
    ∧ (update_all_metrics env st).state.cpu_temp_chart.valueText =
        "CPU temp: N/A (датчик недоступен)"
    ∧ hasSub "N/A"
        ((update_all_metrics env st).state.cpu_temp_chart.valueText) = true
    ∧ (∃ tb : Table, (update_all_metrics env st).state.repo.db = some tb
        ∧ ∃ row : List SqlValue, tb.rows.getLast? = some row
          ∧ row.getLast? = some SqlValue.null) := by
  have hct : read_cpu_temperature env.sensors env.lm env.sysfsDir env.zones
      = none := by
    simp [read_cpu_temperature, hs, hlm, hfs]
  refine ⟨hct, ?_, ?_, ?_⟩
  · cases hg1 : (read_gpu_metrics env.gpus).1 <;>
      cases hg2 : (read_gpu_metrics env.gpus).2 <;>
        simp [update_all_metrics, insert_measurement, update_value,
          hg1, hg2, hct, hok, ht]
  · cases hg1 : (read_gpu_metrics env.gpus).1 <;>
      cases hg2 : (read_gpu_metrics env.gpus).2 <;>
        simp [update_all_metrics, insert_measurement, update_value,
          hg1, hg2, hct, hok, ht] <;> decide
  · refine ⟨insertRow t
      { captured_at := env.captured_at,
        cpu_percent := env.cpu_percent,
        ram_percent := env.ram_percent,
        gpu_load_percent := (read_gpu_metrics env.gpus).1,
        gpu_temp_c := (read_gpu_metrics env.gpus).2,
        cpu_temp_c := none },
      ?_, rowOfSample t.nextId
      { captured_at := env.captured_at,
        cpu_percent := env.cpu_percent,
        ram_percent := env.ram_percent,
        gpu_load_percent := (read_gpu_metrics env.gpus).1,
        gpu_temp_c := (read_gpu_metrics env.gpus).2,
        cpu_temp_c := none },
      ?_, ?_⟩
    · simp [update_all_metrics, insert_measurement, hct, hok, ht]
    · simp [insertRow, List.getLast?_concat]
    · simp [rowOfSample, optReal]

/-- A fresh app state over a store that already has its schema table. -/
def app0 : AppState :=
  { cpu_chart := initChart 90 "%", ram_chart := initChart 90 "%",
    gpu_load_chart := initChart 90 "%", gpu_temp_chart := initChart 90 "°C",
    cpu_temp_chart := initChart 90 "°C",
    repo := { db := none, uncommitted := some (createTableIfNotExists none) } }

/-- An environment in which every temperature source fails and no GPU is
found, with a working store. -/
def envNoTemp : TickEnv :=
  { captured_at := "2024-01-01 00:00:03", cpu_percent := 5, ram_percent := 7,
    gpus := .error (), sensors := .error (), lm := none, sysfsDir := false,
    zones := [], storeFails := false }

/-- Witness for C9 at a concrete all-sources-failed tick. -/
theorem c9_all_sources_fail_witness :
    collectCurrents envNoTemp.sensors = []
    ∧ read_cpu_temp_from_lm_sensors envNoTemp.lm = none
    ∧ read_cpu_temp_from_sysfs envNoTemp.sysfsDir envNoTemp.zones = none
    ∧ read_cpu_temperature envNoTemp.sensors envNoTemp.lm envNoTemp.sysfsDir
        envNoTemp.zones = none
    ∧ (update_all_metrics envNoTemp app0).state.cpu_temp_chart.valueText =
        "CPU temp: N/A (датчик недоступен)" := by
  have h := c9_all_sources_fail envNoTemp app0 (createTableIfNotExists none)
    rfl rfl rfl rfl rfl
  exact ⟨rfl, rfl, rfl, h.1, h.2.1⟩

/-- A label built around a formatted value is never the empty string. -/
theorem label_append_ne_empty (a t b : String) (ha : a.length ≠ 0) :
    (a ++ t ++ b) ≠ "" := by
  intro h
  have hl := congrArg String.length h
  rw [String.length_append, String.length_append] at hl
  have h0 : "".length = 0 := rfl
  rw [h0] at hl
  omega

/-- Strings of different lengths differ: the unavailable GPU-temperature
label can never coincide with a formatted reading. -/
theorem gpu_na_label_ne (t : String) :
    "GPU temp: N/A" ≠ "Текущая температура GPU: " ++ t ++ "°C" := by
  intro h
  have hl := congrArg String.length h
  rw [String.length_append, String.length_append] at hl
  have h1 : "GPU temp: N/A".length = 13 := rfl
  have h2 : "Текущая температура GPU: ".length = 25 := rfl
  have h3 : "°C".length = 2 := rfl
  rw [h1, h2, h3] at hl
  omega

/-- C10 (implicit) — on every tick, each optional metric (GPU load, GPU
temperature, CPU temperature) that is unavailable has 0.0 appended to its own
rolling history: every history receives exactly `push` of the metric's value
with 0 substituted for None, independently of the other metrics, so the
history sequence does not distinguish an unknown reading from a measured
zero; the display label and the persisted column of that metric do preserve
the distinction (an unavailable GPU temperature renders "GPU temp: N/A" and
persists NULL, while a measured reading renders the formatted label — never
equal to the unavailable label — and persists the real value). -/
theorem c10_history_zero_for_unknown (env : TickEnv) (st : AppState) :
    (update_all_metrics env st).state.gpu_load_chart.history =
        st.gpu_load_chart.history.push ((read_gpu_metrics env.gpus).1.getD 0)
    ∧ (update_all_metrics env st).state.gpu_temp_chart.history =
        st.gpu_temp_chart.history.push ((read_gpu_metrics env.gpus).2.getD 0)
    ∧ (update_all_metrics env st).state.cpu_temp_chart.history =
        st.cpu_temp_chart.history.push
          ((read_cpu_temperature env.sensors env.lm env.sysfsDir
            env.zones).getD 0)
    ∧ ((read_gpu_metrics env.gpus).2 = none →
        (update_all_metrics env st).state.gpu_temp_chart.valueText =
          "GPU temp: N/A")
    ∧ (∀ v : ℚ, (read_gpu_metrics env.gpus).2 = some v →
        (update_all_metrics env st).state.gpu_temp_chart.valueText =
          "Текущая температура GPU: " ++ fmt1 v ++ "°C")
    ∧ (∀ v : ℚ,
        "GPU temp: N/A" ≠ "Текущая температура GPU: " ++ fmt1 v ++ "°C")
    ∧ (∀ t : Table, env.storeFails = false → st.repo.uncommitted = some t →
        ∃ tb : Table, (update_all_metrics env st).state.repo.db = some tb
          ∧ tb.rows.getLast? = some
            [SqlValue.int t.nextId, SqlValue.text env.captured_at,
             SqlValue.real env.cpu_percent, SqlValue.real env.ram_percent,
             optReal (read_gpu_metrics env.gpus).1,
             optReal (read_gpu_metrics env.gpus).2,
             optReal (read_cpu_temperature env.sensors env.lm env.sysfsDir
               env.zones)])
    ∧ optReal none = SqlValue.null
    ∧ (∀ v : ℚ, optReal (some v) = SqlValue.real v) := by
  refine ⟨?_, ?_, ?_, ?_, ?_, ?_, ?_, rfl, fun v => rfl⟩
  · cases hsf : env.storeFails <;>
      cases hu : st.repo.uncommitted <;>
        cases hg : (read_gpu_metrics env.gpus).1 <;>
          simp [update_all_metrics, insert_measurement, update_value,
            hsf, hu, hg]
  · cases hsf : env.storeFails <;>
      cases hu : st.repo.uncommitted <;>
        cases hg : (read_gpu_metrics env.gpus).2 <;>
          simp [update_all_metrics, insert_measurement, update_value,
            hsf, hu, hg]
  · cases hsf : env.storeFails <;>
      cases hu : st.repo.uncommitted <;>
        cases hc : read_cpu_temperature env.sensors env.lm env.sysfsDir
            env.zones <;>
          simp [update_all_metrics, insert_measurement, update_value,
            hsf, hu, hc]
  · intro hg
    cases hsf : env.storeFails <;>
      cases hu : st.repo.uncommitted <;>
        simp [update_all_metrics, insert_measurement, update_value, hsf, hu,
          hg]
  · intro v hg
    have hne : ("Текущая температура GPU: " ++ fmt1 v ++ "°C") ≠ "" :=
      label_append_ne_empty _ _ _ (by decide)
    cases hsf : env.storeFails <;>
      cases hu : st.repo.uncommitted <;>
        simp [update_all_metrics, insert_measurement, update_value, hsf, hu,
          hg, hne]
  · intro v
    exact gpu_na_label_ne (fmt1 v)
  · intro t hok ht
    refine ⟨insertRow t
      { captured_at := env.captured_at,
        cpu_percent := env.cpu_percent,
        ram_percent := env.ram_percent,
        gpu_load_percent := (read_gpu_metrics env.gpus).1,
        gpu_temp_c := (read_gpu_metrics env.gpus).2,
        cpu_temp_c := read_cpu_temperature env.sensors env.lm env.sysfsDir
          env.zones },
      ?_, ?_⟩
    · simp [update_all_metrics, insert_measurement, hok, ht]
    · simp [insertRow, List.getLast?_concat, rowOfSample]

/-- An environment in which the GPU reports a load but no temperature, the
CPU-temperature sources all fail, and the store works. -/
def envMixed : TickEnv :=
  { captured_at := "2024-01-01 00:00:04", cpu_percent := 5, ram_percent := 7,
    gpus := .ok [{ load := 1 / 2, temperature := none }],
    sensors := .error (), lm := none, sysfsDir := false,
    zones := [], storeFails := false }

/-- Witness for C10 at a tick where the GPU load is present (50%) while the
GPU temperature and CPU temperature are unavailable: the available metric's
history receives its measured value, each unavailable metric's history
receives 0.0, the GPU-temperature label is the unavailable string, and the
committed row ends with NULL for the absent CPU temperature. -/
theorem c10_history_zero_for_unknown_witness :
    (update_all_metrics envMixed app0).state.gpu_load_chart.history =
        app0.gpu_load_chart.history.push 50
    ∧ (update_all_metrics envMixed app0).state.gpu_temp_chart.history =
        app0.gpu_temp_chart.history.push 0
    ∧ (update_all_metrics envMixed app0).state.cpu_temp_chart.history =
        app0.cpu_temp_chart.history.push 0
    ∧ (update_all_metrics envMixed app0).state.gpu_temp_chart.valueText =
        "GPU temp: N/A"
    ∧ (∃ tb : Table,
        (update_all_metrics envMixed app0).state.repo.db = some tb
        ∧ ∃ row : List SqlValue, tb.rows.getLast? = some row
          ∧ row.getLast? = some SqlValue.null) := by
  have h := c10_history_zero_for_unknown envMixed app0
  refine ⟨?_, ?_, ?_, h.2.2.2.1 rfl, ?_⟩
  · have h1 := h.1
    norm_num [envMixed, read_gpu_metrics] at h1
    exact h1
  · have h2 := h.2.1
    simpa using h2
  · have h3 := h.2.2.1
    simpa using h3
  · obtain ⟨tb, hdb, hlast⟩ := h.2.2.2.2.2.2.1 (createTableIfNotExists none)
      rfl rfl
    refine ⟨tb, hdb,
      [SqlValue.int 1, SqlValue.text envMixed.captured_at,
       SqlValue.real envMixed.cpu_percent, SqlValue.real envMixed.ram_percent,
       optReal (read_gpu_metrics envMixed.gpus).1,
       optReal (read_gpu_metrics envMixed.gpus).2,
       optReal (read_cpu_temperature envMixed.sensors envMixed.lm
         envMixed.sysfsDir envMixed.zones)],
      hlast, rfl⟩

end Monitor
